import Mathlib

/-!
Verification of the dashboard backtesting repository.

The first part embeds the data-loading and request-validation layer
(`app/data_loader.py` and `api/main.py`): a CSV file is modelled as a list
of rows plus flags recording which optional columns the file carries, and
the pandas pipeline `sort_index().dropna()` followed by ticker selection is
translated function by function.  The second part models the backtesting
engine and the metrics calculator from the specification, since
`app/engine.py` is not part of the available sources.
-/

deriving instance DecidableEq for Except

namespace Dashboard

/-- One data row of a CSV file, after `pd.read_csv` and date parsing.
`date` is the parsed `Date` cell (an ordinal), `ticker` the value of the
`Ticker` column when the file has one, `close` and `signal` the `Close` and
`Signal` cells, and `hasNA` records whether any cell of the row is NA
(so that `dropna` removes the row). -/
structure CsvRow where
  date : ℕ
  ticker : String
  close : ℚ
  signal : ℤ
  hasNA : Bool
deriving DecidableEq

/-- A CSV file: its rows plus which of the optional / required columns the
header carries.  When a flag is `false` the corresponding row field is
meaningless (the column is absent from the frame). -/
structure CsvFile where
  rows : List CsvRow
  hasTicker : Bool
  hasClose : Bool
  hasSignal : Bool
deriving DecidableEq

/-- Exceptions the Python loader can raise. -/
inductive PyErr where
  | fileNotFound (path : String)
  | indexErr
  | pipelineErr
deriving DecidableEq

/-- The date ordering on rows, the index ordering of `df.sort_index()`. -/
def dateLE (a b : CsvRow) : Prop := a.date ≤ b.date

instance : DecidableRel dateLE := fun a b => inferInstanceAs (Decidable (a.date ≤ b.date))

instance : IsTotal CsvRow dateLE := ⟨fun a b => Nat.le_total a.date b.date⟩

instance : IsTrans CsvRow dateLE := ⟨fun _ _ _ => Nat.le_trans⟩

/-- Sort the rows by date: the model of `df.sort_index()` (order among equal
dates is not relied upon). -/
def sortByDate (rows : List CsvRow) : List CsvRow :=
  List.insertionSort dateLE rows

/-- `df.sort_index().dropna()`: sort by date, then drop every row that
contains an NA cell. -/
def cleanRows (rows : List CsvRow) : List CsvRow :=
  (sortByDate rows).filter (fun r => !r.hasNA)

/-- `df['Ticker'].unique()`: the distinct values in order of first
appearance. -/
def uniqueTickers (l : List String) : List String :=
  l.foldl (fun acc a => if a ∈ acc then acc else acc ++ [a]) []

/-- `'AAPL' if 'AAPL' in tickers else tickers[0]`; `none` models the
IndexError raised by `tickers[0]` on an empty array. -/
def defaultTicker (tickers : List String) : Option String :=
  if "AAPL" ∈ tickers then some "AAPL" else tickers.head?

/-- The ticker-selection logic of `load_from_csv`: the requested ticker when
it is present, else the default. -/
def selectTicker (req : Option String) (tickers : List String) : Option String :=
  match req with
  | some t => if t ∈ tickers then some t else defaultTicker tickers
  | none => defaultTicker tickers

/-- `load_from_csv(csv_path, ticker)`: raise `FileNotFoundError` when the
path does not exist; otherwise read the file, sort by date, drop NA rows,
and — when the file carries a `Ticker` column — keep only the selected
ticker's rows.  `fs` is the set of existing paths. -/
def load_from_csv (fs : List String) (path : String) (file : CsvFile)
    (req : Option String) : Except PyErr (List CsvRow) :=
  if path ∈ fs then
    let df := cleanRows file.rows
    if file.hasTicker then
      match selectTicker req (uniqueTickers (df.map (·.ticker))) with
      | some sel => .ok (df.filter (fun r => r.ticker == sel))
      | none => .error .indexErr
    else .ok df
  else .error (.fileNotFound path)

/-- `data.pipeline_adapter` is not part of the repository, so the import at
the top of `app/data_loader.py` fails and the except-branch sets the flag to
`False`. -/
def PIPELINE_AVAILABLE : Bool := false

/-- Set by the same failed import's except-branch. -/
def DATA_SOURCE : String := "csv"

/-- `load_historical_data(csv_path, ticker, use_pipeline)`: pipeline data
when requested and available, else the CSV fallback.  The pipeline branch is
dead in this repository because `PIPELINE_AVAILABLE` is `false`. -/
def load_historical_data (fs : List String) (path : String) (file : CsvFile)
    (req : Option String) (use_pipeline : Option Bool) :
    Except PyErr (List CsvRow) :=
  let shouldUsePipeline := use_pipeline.getD (DATA_SOURCE == "pipeline")
  if shouldUsePipeline && PIPELINE_AVAILABLE then .error .pipelineErr
  else load_from_csv fs path file req

/-- Does the loaded frame carry the named column?  Only the two required
columns are consulted by `run_backtest`. -/
def hasCol (file : CsvFile) (c : String) : Bool :=
  if c == "Close" then file.hasClose
  else if c == "Signal" then file.hasSignal
  else true

/-- Python's repr of a list of strings, as an f-string interpolates it
(`['Close', 'Signal']`). -/
def pyRepr (l : List String) : String :=
  "[" ++ String.intercalate ", " (l.map (fun s => "\x27" ++ s ++ "\x27")) ++ "]"

/-- The detail of the missing-columns `HTTPException(400)` the endpoint
raises: `f"Missing required columns: {missing_columns}"`. -/
def missingColsMsg (file : CsvFile) : String :=
  "Missing required columns: " ++
    pyRepr (["Close", "Signal"].filter (fun c => !hasCol file c))

/-- A failure inside the `try` block of `run_backtest`: either an
`HTTPException` the endpoint raises itself, or a Python exception escaping
the loader. -/
inductive TryErr where
  | httpExc (code : ℕ) (detail : String)
  | py (e : PyErr)
deriving DecidableEq

/-- The body of the `try` in `run_backtest` (`api/main.py`): the up-front
existence check (only when `use_pipeline` is exactly `False`), the load,
the emptiness check and the required-columns check, in order.  `.ok df`
means every check passed and `BacktestEngine(df)` was constructed on
`df`. -/
def run_backtest_body (fs : List String) (path : String) (file : CsvFile)
    (req : Option String) (use_pipeline : Option Bool) :
    Except TryErr (List CsvRow) :=
  if use_pipeline = some false ∧ path ∉ fs then
    .error (.httpExc 404 ("CSV file not found: " ++ path))
  else
    match load_historical_data fs path file req use_pipeline with
    | .error e => .error (.py e)
    | .ok df =>
      if df.isEmpty then .error (.httpExc 400 "Loaded data is empty")
      else if !(file.hasClose && file.hasSignal) then
        .error (.httpExc 400 (missingColsMsg file))
      else .ok df

/-- `str(e)` of the modelled Python exceptions. -/
def pyErrStr : PyErr → String
  | .fileNotFound p => "CSV file not found: " ++ p
  | .indexErr => "index 0 is out of bounds for axis 0 with size 0"
  | .pipelineErr => "pipeline unavailable"

/-- `str(e)` of a Starlette `HTTPException`: `f"{status_code}: {detail}"`. -/
def httpExcStr (code : ℕ) (detail : String) : String :=
  toString code ++ ": " ++ detail

/-- `POST /api/v1/backtest/run`: the `try/except` of `run_backtest`.
`.error (code, detail)` is the `HTTPException` actually answered to the
caller.  The `except FileNotFoundError` clause answers 404 and
`except ValueError` 400 (no `ValueError` arises on the live paths), while
every other exception — including the endpoint's own `HTTPException`s,
since `HTTPException` subclasses `Exception` — is caught by the final
`except Exception` and answered 500 with
`f"Internal server error: {str(e)}"`. -/
def run_backtest (fs : List String) (path : String) (file : CsvFile)
    (req : Option String) (use_pipeline : Option Bool) :
    Except (ℕ × String) (List CsvRow) :=
  match run_backtest_body fs path file req use_pipeline with
  | .ok df => .ok df
  | .error (.py (.fileNotFound p)) => .error (404, pyErrStr (.fileNotFound p))
  | .error (.py .indexErr) =>
      .error (500, "Internal server error: " ++ pyErrStr .indexErr)
  | .error (.py .pipelineErr) =>
      .error (500, "Internal server error: " ++ pyErrStr .pipelineErr)
  | .error (.httpExc code detail) =>
      .error (500, "Internal server error: " ++ httpExcStr code detail)

/-! ### Signal generation (`generate_signals_from_indicators` and `signals/api.py`) -/

/-- An indicator frame: `n` rows and the indicator columns under either of
their accepted names, each `some` list when the column is present. -/
structure IndFrame where
  n : ℕ
  RSI_14 : Option (List ℚ)
  rsi : Option (List ℚ)
  MACD : Option (List ℚ)
  macd : Option (List ℚ)
  Close : Option (List ℚ)
  close : Option (List ℚ)
  SMA_50 : Option (List ℚ)
  ma50 : Option (List ℚ)

/-- `df.get(primary, df.get(fallback, None))`. -/
def getCol (primary fallback : Option (List ℚ)) : Option (List ℚ) :=
  primary.orElse (fun _ => fallback)

/-- The RSI column resolved under either accepted name. -/
def rsiCol (f : IndFrame) : Option (List ℚ) := getCol f.RSI_14 f.rsi

/-- The MACD column resolved under either accepted name. -/
def macdCol (f : IndFrame) : Option (List ℚ) := getCol f.MACD f.macd

/-- The Close column resolved under either accepted name. -/
def closeCol (f : IndFrame) : Option (List ℚ) := getCol f.Close f.close

/-- The 50-day SMA column resolved under either accepted name. -/
def smaCol (f : IndFrame) : Option (List ℚ) := getCol f.SMA_50 f.ma50

/-- `generate_signals_from_indicators(df)`: start from all-zero signals;
when every one of the four indicator columns resolves, assign `1` on the
buy condition and then `-1` on the sell condition (the sell assignment
overwrites the buy one). -/
def generate_signals_from_indicators (f : IndFrame) : List ℤ :=
  match rsiCol f, macdCol f, closeCol f, smaCol f with
  | some rsi, some macd, some close, some sma =>
      (List.range f.n).map (fun i =>
        let afterBuy : ℤ :=
          if rsi.getD i 0 < 30 ∨ (0 < macd.getD i 0 ∧ sma.getD i 0 < close.getD i 0)
          then 1 else 0
        if 70 < rsi.getD i 0 ∨ (macd.getD i 0 < 0 ∧ close.getD i 0 < sma.getD i 0)
        then -1 else afterBuy)
  | _, _, _, _ => List.replicate f.n 0

/-- `signals/api.py`, historical endpoint: `np.where(avg_preds > 0, 1, -1)`
applied to the averaged model predictions. -/
def historicalSignals (avgPreds : List ℚ) : List ℤ :=
  avgPreds.map (fun p => if 0 < p then 1 else -1)

/-- `signals/api.py`, live endpoint: `"BUY" if avg_pred > 0 else "SELL"`. -/
def liveSignal (avgPred : ℚ) : String :=
  if 0 < avgPred then "BUY" else "SELL"

/-! ### The backtesting engine, modelled from the specification

`app/engine.py` is imported by `api/main.py` but is not among the available
sources, so the simulators and the metrics calculator below are modelled
from the specification (§4.2–§4.4). -/

/-- One validated bar: its `Close` price and its `Signal`
(`BUY = 1, HOLD = 0, SELL = -1`). -/
structure Bar where
  close : ℚ
  signal : ℤ
deriving DecidableEq

/-- The mutable simulation accumulator of the signal-driven simulator:
cash, shares held, and the price at which the open position was entered. -/
structure PState where
  cash : ℚ
  shares : ℚ
  entryPrice : ℚ
deriving DecidableEq

/-- A closed round-trip trade recorded by the signal-driven simulator. -/
structure Trade where
  entryPrice : ℚ
  exitPrice : ℚ
  shares : ℚ
  pnl : ℚ
deriving DecidableEq

/-- Modelled from the spec: one step of the signal-driven simulator's state
machine (§4.3).  In state FLAT (`shares = 0`): on `BUY` with positive
post-commission cash, convert all cash into `cash·(1−c)/close` shares;
otherwise no-op (a blocked `BUY`, a `HOLD` or a `SELL` leaves everything
unchanged).  In state HOLDING: on `SELL`, liquidate at
`shares·close·(1−c)` and append the closed trade; on `BUY` or `HOLD`,
no-op. -/
def stepBar (c : ℚ) (st : PState × List Trade) (b : Bar) : PState × List Trade :=
  let s := st.1
  let tradeLog := st.2
  if s.shares = 0 then
    if b.signal = 1 ∧ 0 < s.cash * (1 - c) then
      (⟨0, s.cash * (1 - c) / b.close, b.close⟩, tradeLog)
    else st
  else
    if b.signal = -1 then
      let proceeds := s.shares * b.close * (1 - c)
      (⟨s.cash + proceeds, 0, s.entryPrice⟩,
        tradeLog ++ [⟨s.entryPrice, b.close, s.shares,
          proceeds - s.shares * s.entryPrice⟩])
    else st

/-- The initial portfolio state: all capital in cash, no position. -/
def initState (capital : ℚ) : PState × List Trade := (⟨capital, 0, 0⟩, [])

/-- Portfolio state and trade log after processing the given bars in
order. -/
def stateAfter (c : ℚ) (st : PState × List Trade) (bars : List Bar) :
    PState × List Trade :=
  bars.foldl (stepBar c) st

/-- Modelled from the spec: the recorded equity curve of the signal-driven
simulator — one point per bar, `cash + shares_held · Close[bar]` after the
bar is processed. -/
def recordCurve (c : ℚ) (st : PState × List Trade) : List Bar → List ℚ
  | [] => []
  | b :: bs =>
      let st1 := stepBar c st b
      (st1.1.cash + st1.1.shares * b.close) :: recordCurve c st1 bs

/-- Did the simulator execute a fill (a trade) at this bar, given the state
it entered the bar with? -/
def TradedAt (c : ℚ) (s : PState) (b : Bar) : Prop :=
  (s.shares = 0 ∧ b.signal = 1 ∧ 0 < s.cash * (1 - c)) ∨
  (s.shares ≠ 0 ∧ b.signal = -1)

instance (c : ℚ) (s : PState) (b : Bar) : Decidable (TradedAt c s b) := by
  unfold TradedAt; infer_instance

/-- The commission charged at this bar: `c·cash` on an executed entry,
`c·shares·close` on an executed exit, `0` otherwise. -/
def commissionAt (c : ℚ) (s : PState) (b : Bar) : ℚ :=
  if s.shares = 0 then
    if b.signal = 1 ∧ 0 < s.cash * (1 - c) then c * s.cash else 0
  else
    if b.signal = -1 then c * (s.shares * b.close) else 0

/-- Modelled from the spec: the benchmark's share count — all capital spent
at the first close, commission deducted once (§4.2). -/
def benchShares (c capital close0 : ℚ) : ℚ := capital * (1 - c) / close0

/-- Modelled from the spec: the buy-and-hold benchmark equity curve —
`shares · close_t` at every bar, with no residual cash. -/
def benchCurve (c capital : ℚ) (bars : List Bar) : List ℚ :=
  bars.map (fun b => benchShares c capital ((bars.headD ⟨1, 0⟩).close) * b.close)

/-! ### Metrics calculator, modelled from the specification (§4.4) -/

/-- Simple percentage change between consecutive equity points; the first
point has no return. -/
def dailyReturns : List ℚ → List ℚ
  | [] => []
  | [_] => []
  | a :: b :: rest => (b - a) / a :: dailyReturns (b :: rest)

/-- The mean of a list of rationals (0 on the empty list). -/
def meanQ (l : List ℚ) : ℚ :=
  if l.length = 0 then 0 else l.sum / l.length

/-- The variance of a list of rationals (0 on the empty list). -/
def varQ (l : List ℚ) : ℚ :=
  if l.length = 0 then 0
  else ((l.map (fun x => (x - meanQ l) ^ 2)).sum) / l.length

/-- Modelled from the spec: the square of the annualized volatility,
`(stdev(daily_returns) · sqrt 252)² = var(daily_returns) · 252`.  The
volatility itself is irrational in general, so theorems quantify over any
nonnegative `vol` with `vol² = annualVolSq`. -/
def annualVolSq (eq : List ℚ) : ℚ :=
  varQ (dailyReturns eq) * 252

/-- Modelled from the spec: the Sharpe ratio
`(mean(daily_returns)·252 − risk_free_rate) / volatility`, defined as `0`
(not NaN or an error) when the volatility is `0`. -/
def sharpe (eq : List ℚ) (rf vol : ℚ) : ℚ :=
  if vol = 0 then 0 else (meanQ (dailyReturns eq) * 252 - rf) / vol

/-- Modelled from the spec: the win rate
`count(trade.pnl > 0) / count(trades)`, defined as `0` (not a
division-by-zero failure) when there are no trades. -/
def winRate (trades : List Trade) : ℚ :=
  if trades.length = 0 then 0
  else ((trades.filter (fun t => 0 < t.pnl)).length : ℚ) / trades.length

/-! ### Convenience views of a run, used to state the invariants -/

/-- The mark-to-market equity of a portfolio state at a price. -/
def equityOf (s : PState) (price : ℚ) : ℚ := s.cash + s.shares * price

/-- The bar processed at index `t` (a harmless default off the end). -/
def barAt (bars : List Bar) (t : ℕ) : Bar := bars.getD t ⟨1, 0⟩

/-- The state the simulator enters bar `t` with. -/
def stateBefore (c capital : ℚ) (bars : List Bar) (t : ℕ) : PState × List Trade :=
  stateAfter c (initState capital) (bars.take t)

/-- The state the simulator leaves bar `t` with. -/
def stateAt (c capital : ℚ) (bars : List Bar) (t : ℕ) : PState × List Trade :=
  stepBar c (stateBefore c capital bars t) (barAt bars t)

/-! ### Concrete fixtures used by witnesses and counterexamples -/

/-- A single bar with non-positive close and out-of-range signal. -/
def badRow : CsvRow := ⟨0, "", -5, 7, false⟩

/-- A one-bar file carrying `Close` and `Signal` but violating every
validation rule of spec §4.1. -/
def badFile : CsvFile := ⟨[badRow], false, true, true⟩

/-- A file missing the `Close` column. -/
def noCloseFile : CsvFile := ⟨[⟨0, "", 1, 0, false⟩], false, false, true⟩

/-- Two distinct rows sharing one date. -/
def dupRow1 : CsvRow := ⟨1, "", 10, 0, false⟩

/-- Two distinct rows sharing one date. -/
def dupRow2 : CsvRow := ⟨1, "", 20, 0, false⟩

/-- A file whose two rows share a date. -/
def dupFile : CsvFile := ⟨[dupRow1, dupRow2], false, true, true⟩

/-- A row dated after `tickRowG` but appearing first in the file. -/
def tickRowM : CsvRow := ⟨2, "MSFT", 1, 0, false⟩

/-- A row dated before `tickRowM` but appearing second in the file. -/
def tickRowG : CsvRow := ⟨1, "GOOG", 2, 0, false⟩

/-- A tickered file whose first row is not the earliest-dated one. -/
def tickFile : CsvFile := ⟨[tickRowM, tickRowG], true, true, true⟩

/-- Scenario A of spec §8: closes 100, 110, 105 with signals buy, hold,
sell. -/
def barsA : List Bar := [⟨100, 1⟩, ⟨110, 0⟩, ⟨105, -1⟩]

/-- An indicator frame whose single bar satisfies both the buy condition
(RSI 25 < 30) and the sell condition (MACD −1 < 0 and Close 3 < SMA 5). -/
def frameBoth : IndFrame := ⟨1, some [25], none, some [-1], none, some [3], none, some [5], none⟩

/-- An indicator frame with a buy bar (RSI 25) and a hold bar (RSI 50,
MACD 1 > 0 but Close 10 not above SMA 20). -/
def frameBuyHold : IndFrame :=
  ⟨2, some [25, 50], none, none, some [1, 1], some [10, 10], none, some [5, 20], none⟩

/-- An indicator frame with no RSI column under either name. -/
def frameNoRsi : IndFrame := ⟨2, none, none, some [1, 1], none, some [3, 3], none, some [5, 5], none⟩

/-! ## Shared lemmas -/

/-- The pipeline branch of `load_historical_data` is dead in this
repository, so loading always falls through to the CSV loader. -/
theorem load_historical_eq_csv (fs : List String) (path : String) (file : CsvFile)
    (req : Option String) (up : Option Bool) :
    load_historical_data fs path file req up = load_from_csv fs path file req := by
  unfold load_historical_data PIPELINE_AVAILABLE
  simp

/-- The accumulator of the `unique()` fold only ever grows. -/
theorem mem_uniqueTickers_foldl (l : List String) :
    ∀ (acc : List String) (x : String), x ∈ acc →
      x ∈ l.foldl (fun acc a => if a ∈ acc then acc else acc ++ [a]) acc := by
  induction l with
  | nil => intro acc x hx; exact hx
  | cons a l ih =>
      intro acc x hx
      rw [List.foldl_cons]
      apply ih
      by_cases h : a ∈ acc <;> simp [h, hx]

/-- `unique()` of a nonempty column is nonempty. -/
theorem uniqueTickers_ne_nil {l : List String} (h : l ≠ []) :
    uniqueTickers l ≠ [] := by
  rcases l with _ | ⟨a, l⟩
  · exact absurd rfl h
  · have ha : a ∈ uniqueTickers (a :: l) := by
      unfold uniqueTickers
      rw [List.foldl_cons]
      apply mem_uniqueTickers_foldl
      simp
    exact List.ne_nil_of_mem ha

/-- Ticker selection succeeds on every nonempty ticker list. -/
theorem selectTicker_isSome (req : Option String) {tickers : List String}
    (h : tickers ≠ []) : ∃ sel, selectTicker req tickers = some sel := by
  have hd : ∃ s, tickers.head? = some s := by
    rcases l : tickers with _ | ⟨a, l'⟩
    · exact absurd l h
    · exact ⟨a, rfl⟩
  obtain ⟨s, hs⟩ := hd
  unfold selectTicker defaultTicker
  rcases req with _ | t
  · by_cases ha : "AAPL" ∈ tickers <;> simp [ha, hs]
  · by_cases hm : t ∈ tickers
    · exact ⟨t, by simp [hm]⟩
    · by_cases ha : "AAPL" ∈ tickers <;> simp [hm, ha, hs]

/-! ## C2 — advisory signals never force a fill -/

/-- C2: in the FLAT state (`shares = 0`) a `SELL` or `HOLD` signal leaves
cash, shares and the trade log unchanged, and in the HOLDING state a `BUY`
or `HOLD` signal leaves the open position and the trade log unchanged. -/
theorem flat_and_holding_noops (c : ℚ) (s : PState) (tradeLog : List Trade) (b : Bar) :
    (s.shares = 0 → b.signal = 0 ∨ b.signal = -1 →
      stepBar c (s, tradeLog) b = (s, tradeLog)) ∧
    (s.shares ≠ 0 → b.signal = 0 ∨ b.signal = 1 →
      stepBar c (s, tradeLog) b = (s, tradeLog)) := by
  constructor
  · rintro h0 (hs | hs) <;> simp [stepBar, h0, hs]
  · rintro h0 (hs | hs) <;> simp [stepBar, h0, hs]

/-- Witness for C2: a `SELL` while flat and a `BUY` while holding are both
no-ops on a concrete state. -/
theorem flat_and_holding_noops_witness :
    stepBar (1/100) (⟨1000, 0, 0⟩, []) ⟨50, -1⟩ = (⟨1000, 0, 0⟩, []) ∧
    stepBar (1/100) (⟨0, 10, 100⟩, []) ⟨50, 1⟩ = (⟨0, 10, 100⟩, []) :=
  ⟨(flat_and_holding_noops (1/100) ⟨1000, 0, 0⟩ [] ⟨50, -1⟩).1 rfl (Or.inr rfl),
   (flat_and_holding_noops (1/100) ⟨0, 10, 100⟩ [] ⟨50, 1⟩).2 (by norm_num) (Or.inr rfl)⟩

/-! ## C3 — zero-denominator sentinels in the metrics calculator -/

/-- C3: the metrics calculator is total (it never raises and never produces
NaN): on an equity curve whose daily returns have zero volatility the
Sharpe ratio is `0`, and on an empty trade log the win rate is `0`.
`vol` is the annualized volatility, the nonnegative square root of
`annualVolSq`. -/
theorem metrics_zero_sentinels (eq : List ℚ) (rf vol : ℚ)
    (_hnn : 0 ≤ vol) (hsq : vol * vol = annualVolSq eq)
    (hvar : varQ (dailyReturns eq) = 0) :
    sharpe eq rf vol = 0 ∧ winRate [] = 0 := by
  have hv : vol = 0 := by
    have h2 : vol * vol = 0 := by rw [hsq, annualVolSq, hvar]; ring
    exact mul_self_eq_zero.mp h2
  exact ⟨by simp [sharpe, hv], by simp [winRate]⟩

/-- Witness for C3: a flat equity curve has zero volatility and Sharpe `0`,
and the empty trade log has win rate `0`. -/
theorem metrics_zero_sentinels_witness :
    sharpe [1000, 1000, 1000] (1/20) 0 = 0 ∧ winRate [] = 0 :=
  metrics_zero_sentinels [1000, 1000, 1000] (1/20) 0 le_rfl
    (by norm_num [annualVolSq, varQ, dailyReturns, meanQ])
    (by norm_num [varQ, dailyReturns, meanQ])

/-! ## C7 — every supplied signal is one of BUY, HOLD, SELL -/

/-- C7: every per-bar signal each generator supplies lies in the three-value
signal alphabet: the indicator heuristic and the historical endpoint produce
integers in `{-1, 0, 1}`, and the live endpoint produces one of the labels
`BUY`, `HOLD`, `SELL`. -/
theorem signals_in_range :
    (∀ f : IndFrame, ∀ s ∈ generate_signals_from_indicators f,
      s = -1 ∨ s = 0 ∨ s = 1) ∧
    (∀ avgPreds : List ℚ, ∀ s ∈ historicalSignals avgPreds,
      s = -1 ∨ s = 0 ∨ s = 1) ∧
    (∀ p : ℚ, liveSignal p = "BUY" ∨ liveSignal p = "HOLD" ∨ liveSignal p = "SELL") := by
  refine ⟨?_, ?_, ?_⟩
  · intro f s hs
    unfold generate_signals_from_indicators at hs
    split at hs
    · obtain ⟨i, -, rfl⟩ := List.mem_map.mp hs
      split_ifs <;> tauto
    · have := List.eq_of_mem_replicate hs
      tauto
  · intro avgPreds s hs
    obtain ⟨p, -, rfl⟩ := List.mem_map.mp hs
    split_ifs <;> tauto
  · intro p
    unfold liveSignal
    split_ifs <;> tauto

/-- Witness for C7: concrete signals of each generator are in range. -/
theorem signals_in_range_witness :
    ((1 : ℤ) = -1 ∨ (1 : ℤ) = 0 ∨ (1 : ℤ) = 1) ∧
    ((-1 : ℤ) = -1 ∨ (-1 : ℤ) = 0 ∨ (-1 : ℤ) = 1) ∧
    (liveSignal (1/2) = "BUY" ∨ liveSignal (1/2) = "HOLD" ∨ liveSignal (1/2) = "SELL") :=
  ⟨signals_in_range.1 frameBuyHold 1
      (by norm_num [generate_signals_from_indicators, frameBuyHold,
        rsiCol, macdCol, closeCol, smaCol, getCol, List.range_succ]),
   signals_in_range.2.1 [-3] (-1) (by norm_num [historicalSignals]),
   signals_in_range.2.2 (1/2)⟩

/-! ## C8 — absent indicator columns give all-HOLD; sell wins a tie -/

/-- C8: if any of the RSI, MACD, Close or 50-day SMA columns resolves to
nothing under both accepted names, the generator returns `0` (HOLD) for
every bar; and on any bar satisfying both the buy and the sell condition
the resulting signal is `-1`, because the sell assignment is applied after
the buy assignment. -/
theorem indicator_signals_default_and_precedence :
    (∀ f : IndFrame,
      rsiCol f = none ∨ macdCol f = none ∨ closeCol f = none ∨ smaCol f = none →
      generate_signals_from_indicators f = List.replicate f.n 0) ∧
    (∀ (f : IndFrame) (rsi macd close sma : List ℚ) (i : ℕ),
      rsiCol f = some rsi → macdCol f = some macd → closeCol f = some close →
      smaCol f = some sma → i < f.n →
      (rsi.getD i 0 < 30 ∨ (0 < macd.getD i 0 ∧ sma.getD i 0 < close.getD i 0)) →
      (70 < rsi.getD i 0 ∨ (macd.getD i 0 < 0 ∧ close.getD i 0 < sma.getD i 0)) →
      (generate_signals_from_indicators f).getD i 0 = -1) := by
  constructor
  · intro f h
    unfold generate_signals_from_indicators
    rcases h1 : rsiCol f with _ | a <;> rcases h2 : macdCol f with _ | b <;>
      rcases h3 : closeCol f with _ | d <;> rcases h4 : smaCol f with _ | e <;>
      simp_all
  · intro f rsi macd close sma i h1 h2 h3 h4 hi hbuy hsell
    unfold generate_signals_from_indicators
    rw [h1, h2, h3, h4]
    dsimp only
    rw [List.getD_eq_getElem?_getD, List.getElem?_map, List.getElem?_range hi]
    simp only [Option.map_some', Option.getD_some, if_pos hsell]

/-- Witness for C8: a frame missing RSI yields all-HOLD, and a bar whose
indicators satisfy both conditions yields `-1`. -/
theorem indicator_signals_default_and_precedence_witness :
    generate_signals_from_indicators frameNoRsi = List.replicate frameNoRsi.n 0 ∧
    (generate_signals_from_indicators frameBoth).getD 0 0 = -1 :=
  ⟨indicator_signals_default_and_precedence.1 frameNoRsi
      (Or.inl (by norm_num [rsiCol, frameNoRsi, getCol])),
   indicator_signals_default_and_precedence.2 frameBoth [25] [-1] [3] [5] 0
      (by norm_num [rsiCol, frameBoth, getCol])
      (by norm_num [macdCol, frameBoth, getCol])
      (by norm_num [closeCol, frameBoth, getCol])
      (by norm_num [smaCol, frameBoth, getCol])
      (by norm_num [frameBoth]) (by norm_num) (by norm_num)⟩

/-! ## C4 — missing `Close` or `Signal`: blocked, but answered 500 -/

/-- Counterexample to C4: a loaded series missing `Close` never reaches the
engine, but the caller is not answered a DataError-style 400 — the
endpoint's own `HTTPException(400, ...)` is caught by its final
`except Exception` and re-answered as HTTP 500 with a wrapped detail. -/
theorem missing_columns_answered_500 :
    run_backtest ["a.csv"] "a.csv" noCloseFile none none =
      .error (500, "Internal server error: 400: Missing required columns: [\x27Close\x27]") ∧
    ∀ detail, run_backtest ["a.csv"] "a.csv" noCloseFile none none ≠
      .error (400, detail) := by
  constructor
  · decide
  · intro detail hne
    rw [(by decide :
      run_backtest ["a.csv"] "a.csv" noCloseFile none none =
        .error (500, "Internal server error: 400: Missing required columns: [\x27Close\x27]"))] at hne
    simp at hne

/-- C4 amended: whenever the input series lacks the `Close` or the `Signal`
column, `run_backtest` never constructs the engine (the result is never
`.ok`), so no simulation state is touched; but whenever the load itself
succeeded with a nonempty frame, the failure reported to the caller is the
HTTP 500 wrapping of the endpoint's missing-columns `HTTPException(400)`,
not a DataError/400. -/
theorem missing_columns_block_simulation (fs : List String) (path : String)
    (file : CsvFile) (req : Option String) (up : Option Bool)
    (h : file.hasClose = false ∨ file.hasSignal = false) :
    (∀ df, run_backtest fs path file req up ≠ .ok df) ∧
    (∀ df, load_historical_data fs path file req up = .ok df → df ≠ [] →
      run_backtest fs path file req up =
        .error (500, "Internal server error: " ++
          httpExcStr 400 (missingColsMsg file))) := by
  have hflag : (file.hasClose && file.hasSignal) = false := by
    rcases h with h | h <;> simp [h]
  have hbody : ∀ df, run_backtest_body fs path file req up ≠ .ok df := by
    intro df
    unfold run_backtest_body
    split
    · simp
    · rcases hld : load_historical_data fs path file req up with e | df'
      · simp
      · by_cases he : df'.isEmpty <;> simp [he, hflag]
  constructor
  · intro df hok
    unfold run_backtest at hok
    rcases hb : run_backtest_body fs path file req up with e | df'
    · rw [hb] at hok
      rcases e with ⟨code, detail⟩ | pe
      · simp at hok
      · rcases pe <;> simp at hok
    · exact hbody df' hb
  · intro df hld hne
    have hb : run_backtest_body fs path file req up =
        .error (.httpExc 400 (missingColsMsg file)) := by
      unfold run_backtest_body
      split
      · exfalso
        rename_i hcond
        rw [load_historical_eq_csv] at hld
        unfold load_from_csv at hld
        rw [if_neg hcond.2] at hld
        exact Except.noConfusion hld
      · rw [hld]
        have : df.isEmpty = false := by simpa [List.isEmpty_iff] using hne
        simp [this, hflag]
    unfold run_backtest
    rw [hb]

/-- Witness for C4's amended claim: a file missing `Close` never reaches
the engine and is answered the wrapped 500. -/
theorem missing_columns_block_simulation_witness :
    (∀ df, run_backtest ["a.csv"] "a.csv" noCloseFile none none ≠ .ok df) ∧
    run_backtest ["a.csv"] "a.csv" noCloseFile none none =
      .error (500, "Internal server error: " ++
        httpExcStr 400 (missingColsMsg noCloseFile)) :=
  ⟨(missing_columns_block_simulation ["a.csv"] "a.csv" noCloseFile none none
      (Or.inl rfl)).1,
   (missing_columns_block_simulation ["a.csv"] "a.csv" noCloseFile none none
      (Or.inl rfl)).2 (cleanRows noCloseFile.rows) (by decide) (by decide)⟩

/-! ## C10 — where the error for a missing CSV file comes from -/

/-- Counterexample to C10: the up-front existence check (run only with
`use_pipeline=False`) raises `HTTPException(404)`, but the catch-all
`except Exception` wraps it into an HTTP 500 — while the loader path
(`use_pipeline=None`) yields a genuine 404.  The two paths do not share the
same 404 status, contrary to the claim. -/
theorem upfront_check_answered_500 :
    run_backtest [] "x.csv" badFile none (some false) =
      .error (500, "Internal server error: 404: CSV file not found: x.csv") ∧
    run_backtest [] "x.csv" badFile none none =
      .error (404, "CSV file not found: x.csv") := by decide

/-- C10 amended: `run_backtest` checks that `csv_path` exists up front only
when `use_pipeline` is explicitly `False`, with no load attempted there —
but its `HTTPException(404)` is caught by the endpoint's own
`except Exception` and answered HTTP 500 with the wrapped detail; for every
missing `csv_path` with `use_pipeline` `None` or `True` (the pipeline being
unavailable), the failure instead surfaces as the `FileNotFoundError`
raised inside `load_from_csv`, which the `except FileNotFoundError` clause
answers with a genuine 404. -/
theorem missing_csv_error_paths (fs : List String) (path : String)
    (file : CsvFile) (req : Option String) (h : path ∉ fs) :
    run_backtest_body fs path file req (some false) =
      .error (.httpExc 404 ("CSV file not found: " ++ path)) ∧
    run_backtest fs path file req (some false) =
      .error (500, "Internal server error: " ++
        httpExcStr 404 ("CSV file not found: " ++ path)) ∧
    (∀ up, up = none ∨ up = some true →
      load_historical_data fs path file req up = .error (.fileNotFound path) ∧
      run_backtest fs path file req up =
        .error (404, "CSV file not found: " ++ path)) := by
  have hb : run_backtest_body fs path file req (some false) =
      .error (.httpExc 404 ("CSV file not found: " ++ path)) := by
    unfold run_backtest_body
    rw [if_pos ⟨rfl, h⟩]
  refine ⟨hb, ?_, ?_⟩
  · unfold run_backtest
    rw [hb]
  · intro up hup
    have hld : load_historical_data fs path file req up =
        .error (.fileNotFound path) := by
      rw [load_historical_eq_csv]
      unfold load_from_csv
      rw [if_neg h]
    refine ⟨hld, ?_⟩
    have hb2 : run_backtest_body fs path file req up =
        .error (.py (.fileNotFound path)) := by
      unfold run_backtest_body
      rw [if_neg ?_, hld]
      rintro ⟨h1, -⟩
      rcases hup with h2 | h2 <;> rw [h2] at h1 <;> simp at h1
    unfold run_backtest
    rw [hb2]
    rfl

/-- Witness for C10's amended claim: a nonexistent path is answered the
wrapped 500 on the up-front path and a genuine 404 on the loader path. -/
theorem missing_csv_error_paths_witness :
    run_backtest_body [] "x.csv" badFile none (some false) =
      .error (.httpExc 404 ("CSV file not found: " ++ "x.csv")) ∧
    run_backtest [] "x.csv" badFile none (some false) =
      .error (500, "Internal server error: " ++
        httpExcStr 404 ("CSV file not found: " ++ "x.csv")) ∧
    load_historical_data [] "x.csv" badFile none none =
      .error (.fileNotFound "x.csv") ∧
    run_backtest [] "x.csv" badFile none none =
      .error (404, "CSV file not found: " ++ "x.csv") :=
  ⟨(missing_csv_error_paths [] "x.csv" badFile none (by simp)).1,
   (missing_csv_error_paths [] "x.csv" badFile none (by simp)).2.1,
   ((missing_csv_error_paths [] "x.csv" badFile none (by simp)).2.2 none (Or.inl rfl)).1,
   ((missing_csv_error_paths [] "x.csv" badFile none (by simp)).2.2 none (Or.inl rfl)).2⟩

/-! ## C5 — the spec's validation rules are not implemented -/

/-- Counterexample to C5: a series with a single bar, a non-positive
`Close` and a `Signal` outside `{-1, 0, 1}` passes every check and reaches
the simulator (`run_backtest` constructs the engine on it). -/
theorem invalid_series_reaches_engine :
    run_backtest ["data.csv"] "data.csv" badFile none (some false) = .ok [badRow] ∧
    badFile.rows.length < 2 ∧ badRow.close ≤ 0 ∧
    badRow.signal ∉ ([-1, 0, 1] : List ℤ) := by decide

/-- C5 amended: the loader and endpoint perform none of the §4.1 value
checks — for an existing unticked file carrying `Close` and `Signal`, the
run is accepted exactly when the sorted NA-dropped series is nonempty
(regardless of bar count, `Close` sign, `Signal` range or duplicate dates),
and an empty cleaned series is answered with the HTTP 500 wrapping of the
endpoint's empty-data `HTTPException(400)`. -/
theorem run_accepts_iff_nonempty (fs : List String) (path : String)
    (file : CsvFile) (req : Option String) (up : Option Bool)
    (hp : path ∈ fs) (ht : file.hasTicker = false)
    (hc : file.hasClose = true) (hsig : file.hasSignal = true) :
    run_backtest fs path file req up =
      if cleanRows file.rows = [] then
        .error (500, "Internal server error: " ++ httpExcStr 400 "Loaded data is empty")
      else .ok (cleanRows file.rows) := by
  have hb : run_backtest_body fs path file req up =
      if cleanRows file.rows = [] then .error (.httpExc 400 "Loaded data is empty")
      else .ok (cleanRows file.rows) := by
    unfold run_backtest_body
    rw [if_neg (by rintro ⟨-, hnp⟩; exact hnp hp), load_historical_eq_csv]
    unfold load_from_csv
    rw [if_pos hp]
    by_cases hne : cleanRows file.rows = [] <;>
      simp [ht, hc, hsig, hne, List.isEmpty_iff]
  unfold run_backtest
  rw [hb]
  by_cases hne : cleanRows file.rows = [] <;> simp [hne]

/-- Witness for C5's amended claim: the one-bar invalid series is
accepted. -/
theorem run_accepts_iff_nonempty_witness :
    run_backtest ["data.csv"] "data.csv" badFile none (some false) =
      if cleanRows badFile.rows = [] then
        .error (500, "Internal server error: " ++ httpExcStr 400 "Loaded data is empty")
      else .ok (cleanRows badFile.rows) :=
  run_accepts_iff_nonempty ["data.csv"] "data.csv" badFile none (some false)
    (by simp) rfl rfl rfl

/-! ## C6 — cleaning: sorted and NA-dropped, but never de-duplicated -/

/-- Counterexample to C6: two distinct rows sharing one date both survive
`load_from_csv` — the series is not de-duplicated by date. -/
theorem duplicate_dates_not_deduplicated :
    load_from_csv ["f"] "f" dupFile none = .ok [dupRow1, dupRow2] ∧
    dupRow1.date = dupRow2.date ∧ dupRow1 ≠ dupRow2 := by decide

/-- The cleaned frame is sorted by date. -/
theorem cleanRows_pairwise (rows : List CsvRow) :
    (cleanRows rows).Pairwise dateLE :=
  (List.sorted_insertionSort dateLE rows).filter _

/-- No NA-containing row survives the cleaning. -/
theorem cleanRows_hasNA {rows : List CsvRow} :
    ∀ r ∈ cleanRows rows, r.hasNA = false := by
  intro r hr
  have := (List.mem_filter.mp hr).2
  simpa using this

/-- Every cleaned row is an input row verbatim. -/
theorem cleanRows_subset {rows : List CsvRow} :
    ∀ r ∈ cleanRows rows, r ∈ rows := by
  intro r hr
  exact (List.mem_insertionSort dateLE).mp (List.mem_filter.mp hr).1

/-- C6 amended: every accepted series — ticker-filtered or not — is sorted
by date, has all NA-containing rows dropped, and every surviving row is an
input row verbatim (in particular its `Signal` value is unmodified) — but
no de-duplication by date takes place: rows sharing a date are all
kept. -/
theorem load_from_csv_cleaning (fs : List String) (path : String)
    (file : CsvFile) (req : Option String) (out : List CsvRow)
    (h : load_from_csv fs path file req = .ok out) :
    out.Pairwise dateLE ∧
    (∀ r ∈ out, r.hasNA = false) ∧
    (∀ r ∈ out, r ∈ file.rows) := by
  by_cases hp : path ∈ fs
  · unfold load_from_csv at h
    rw [if_pos hp] at h
    by_cases htk : file.hasTicker = true
    · simp only [htk, if_true] at h
      rcases hsel : selectTicker req
          (uniqueTickers ((cleanRows file.rows).map (·.ticker))) with _ | sel
      · rw [hsel] at h
        exact absurd h (by simp)
      · rw [hsel] at h
        simp only [Except.ok.injEq] at h
        subst h
        refine ⟨(cleanRows_pairwise file.rows).filter _, ?_, ?_⟩
        · intro r hr
          exact cleanRows_hasNA r (List.mem_filter.mp hr).1
        · intro r hr
          exact cleanRows_subset r (List.mem_filter.mp hr).1
    · simp only [Bool.not_eq_true] at htk
      simp only [htk, Bool.false_eq_true, if_false, Except.ok.injEq] at h
      subst h
      exact ⟨cleanRows_pairwise file.rows, cleanRows_hasNA, cleanRows_subset⟩
  · unfold load_from_csv at h
    rw [if_neg hp] at h
    exact absurd h (by simp)

/-- Witness for C6's amended claim, at the duplicate-date file. -/
theorem load_from_csv_cleaning_witness :
    List.Pairwise dateLE [dupRow1, dupRow2] ∧
    (∀ r ∈ [dupRow1, dupRow2], r.hasNA = false) ∧
    (∀ r ∈ [dupRow1, dupRow2], r ∈ dupFile.rows) :=
  load_from_csv_cleaning ["f"] "f" dupFile none [dupRow1, dupRow2] (by decide)

/-! ## C9 — ticker fallback: AAPL, else first ticker of the sorted frame -/

/-- Counterexample to C9: with no `AAPL` and no usable request, the loader
selects the first ticker of the date-sorted frame (`GOOG`), not the first
ticker appearing in the file (`MSFT`). -/
theorem ticker_fallback_not_first_in_file :
    load_from_csv ["f"] "f" tickFile none = .ok [tickRowG] ∧
    (tickFile.rows.map (fun r => r.ticker)).head? = some "MSFT" ∧
    tickRowG.ticker = "GOOG" ∧
    "AAPL" ∉ tickFile.rows.map (fun r => r.ticker) := by decide

/-- C9 amended: for every tickered file whose cleaned frame is nonempty,
`load_from_csv` never fails over the requested ticker: it selects the
requested ticker when present, else `AAPL` when present, else the first
ticker of the date-sorted NA-dropped frame (not necessarily the first in
the file), and returns exactly that ticker's rows. -/
theorem ticker_selection_total (fs : List String) (path : String)
    (file : CsvFile) (req : Option String) (hp : path ∈ fs)
    (ht : file.hasTicker = true) (hne : cleanRows file.rows ≠ []) :
    ∃ sel,
      selectTicker req (uniqueTickers ((cleanRows file.rows).map (fun r => r.ticker)))
        = some sel ∧
      load_from_csv fs path file req =
        .ok ((cleanRows file.rows).filter (fun r => r.ticker == sel)) := by
  have hmap : (cleanRows file.rows).map (fun r => r.ticker) ≠ [] := by
    simpa using hne
  have htick :
      uniqueTickers ((cleanRows file.rows).map (fun r => r.ticker)) ≠ [] :=
    uniqueTickers_ne_nil hmap
  obtain ⟨sel, hsel⟩ := selectTicker_isSome req htick
  refine ⟨sel, hsel, ?_⟩
  unfold load_from_csv
  rw [if_pos hp]
  simp only [ht, if_true, hsel]

/-- Witness for C9's amended claim: requesting an absent ticker still
succeeds and falls back to the sorted frame's first ticker. -/
theorem ticker_selection_total_witness :
    ∃ sel,
      selectTicker (some "TSLA")
        (uniqueTickers ((cleanRows tickFile.rows).map (fun r => r.ticker)))
        = some sel ∧
      load_from_csv ["f"] "f" tickFile (some "TSLA") =
        .ok ((cleanRows tickFile.rows).filter (fun r => r.ticker == sel)) :=
  ticker_selection_total ["f"] "f" tickFile (some "TSLA") (by simp) rfl (by decide)

/-! ## Engine lemmas (towards C1) -/

/-- Processing a bar is the head step of the fold. -/
theorem stateAfter_cons (c : ℚ) (st : PState × List Trade) (b : Bar) (bs : List Bar) :
    stateAfter c st (b :: bs) = stateAfter c (stepBar c st b) bs := rfl

/-- The mark-to-market wealth after a bar equals the wealth before it minus
the commission charged at it. -/
theorem stepBar_wealth (c : ℚ) (st : PState × List Trade) (b : Bar)
    (hb : 0 < b.close) :
    equityOf (stepBar c st b).1 b.close
      = equityOf st.1 b.close - commissionAt c st.1 b := by
  obtain ⟨s, tradeLog⟩ := st
  unfold stepBar commissionAt equityOf
  dsimp only
  split_ifs with h1 h2 h3
  · rw [h1]
    field_simp
    ring
  · ring
  · ring
  · ring

/-- A bar with no executed fill charges no commission and leaves the state
untouched. -/
theorem stepBar_skip (c : ℚ) (st : PState × List Trade) (b : Bar)
    (h : ¬ TradedAt c st.1 b) :
    stepBar c st b = st ∧ commissionAt c st.1 b = 0 := by
  obtain ⟨s, tradeLog⟩ := st
  unfold TradedAt at h
  unfold stepBar commissionAt
  dsimp only at *
  split_ifs with h1 h2 h3
  · exact absurd (Or.inl ⟨h1, h2.1, h2.2⟩) h
  · exact ⟨rfl, rfl⟩
  · exact absurd (Or.inr ⟨h1, h3⟩) h
  · exact ⟨rfl, rfl⟩

/-- An executed fill charges a strictly positive commission. -/
theorem commissionAt_pos (c : ℚ) (s : PState) (b : Bar) (hc : 0 < c)
    (hc1 : c < 1) (hb : 0 < b.close) (hsh : 0 ≤ s.shares)
    (htr : TradedAt c s b) : 0 < commissionAt c s b := by
  unfold commissionAt
  rcases htr with ⟨h1, h2, h3⟩ | ⟨h1, h2⟩
  · rw [if_pos h1, if_pos ⟨h2, h3⟩]
    have hcash : 0 < s.cash := by nlinarith
    exact mul_pos hc hcash
  · rw [if_neg h1, if_pos h2]
    have hpos : 0 < s.shares := lt_of_le_of_ne hsh (Ne.symm h1)
    exact mul_pos hc (mul_pos hpos hb)

/-- One step keeps cash and shares nonnegative. -/
theorem stepBar_nonneg (c : ℚ) (st : PState × List Trade) (b : Bar)
    (hc1 : c < 1) (hb : 0 < b.close)
    (h1 : 0 ≤ st.1.cash) (h2 : 0 ≤ st.1.shares) :
    0 ≤ (stepBar c st b).1.cash ∧ 0 ≤ (stepBar c st b).1.shares := by
  obtain ⟨s, tradeLog⟩ := st
  unfold stepBar
  dsimp only at *
  split_ifs with h3 h4 h5
  · exact ⟨le_refl 0, div_nonneg (mul_nonneg h1 (by linarith)) hb.le⟩
  · exact ⟨h1, h2⟩
  · exact ⟨add_nonneg h1 (mul_nonneg (mul_nonneg h2 hb.le) (by linarith)), le_refl 0⟩
  · exact ⟨h1, h2⟩

/-- The run keeps cash and shares nonnegative (spec §3: `cash ≥ 0`,
long-only). -/
theorem stateAfter_nonneg (c : ℚ) (hc1 : c < 1) :
    ∀ (bars : List Bar) (st : PState × List Trade),
      0 ≤ st.1.cash → 0 ≤ st.1.shares → (∀ b ∈ bars, 0 < b.close) →
      0 ≤ (stateAfter c st bars).1.cash ∧ 0 ≤ (stateAfter c st bars).1.shares := by
  intro bars
  induction bars with
  | nil => intro st h1 h2 _; exact ⟨h1, h2⟩
  | cons b bs ih =>
      intro st h1 h2 hcl
      rw [stateAfter_cons]
      have hb : 0 < b.close := hcl b (List.mem_cons_self b bs)
      obtain ⟨h1', h2'⟩ := stepBar_nonneg c st b hc1 hb h1 h2
      exact ih (stepBar c st b) h1' h2' (fun x hx => hcl x (List.mem_cons_of_mem b hx))

/-- The recorded equity at index `t` is the mark-to-market equity of the
state leaving bar `t`, at bar `t`'s close. -/
theorem recordCurve_getD (c : ℚ) :
    ∀ (bars : List Bar) (st : PState × List Trade) (t : ℕ), t < bars.length →
      (recordCurve c st bars).getD t 0 =
        equityOf (stepBar c (stateAfter c st (bars.take t)) (bars.getD t ⟨1, 0⟩)).1
          (bars.getD t ⟨1, 0⟩).close := by
  intro bars
  induction bars with
  | nil => intro st t ht; simp at ht
  | cons b bs ih =>
      intro st t ht
      cases t with
      | zero => simp [recordCurve, stateAfter, equityOf]
      | succ t' =>
          have ht' : t' < bs.length := by simpa using ht
          simp only [recordCurve, List.getD_cons_succ, List.take_succ_cons,
            stateAfter_cons]
          exact ih (stepBar c st b) t' ht'

/-- The benchmark equity at index `t` is its (zero) cash plus its fixed
share count marked at bar `t`'s close. -/
theorem benchCurve_getD (c capital : ℚ) (bars : List Bar) (t : ℕ)
    (ht : t < bars.length) :
    (benchCurve c capital bars).getD t 0 =
      0 + benchShares c capital (bars.headD ⟨1, 0⟩).close * (barAt bars t).close := by
  unfold benchCurve barAt
  rw [List.getD_eq_getElem?_getD, List.getElem?_map, List.getElem?_eq_getElem ht,
    List.getD_eq_getElem?_getD, List.getElem?_eq_getElem ht]
  simp

/-- The benchmark's single entry converts the whole capital into shares
worth `capital·(1−c)` at the first close. -/
theorem bench_entry (c capital close0 : ℚ) (h0 : close0 ≠ 0) :
    benchShares c capital close0 * close0 = capital - c * capital := by
  unfold benchShares
  field_simp
  ring

/-! ## C1 — conservation, and wealth decreasing only by commission -/

/-- C1: at every bar `t` of a run (signal-driven or benchmark), the
recorded equity equals `cash + shares_held · Close[t]`; the wealth leaving
a bar equals the wealth entering it minus the commission charged there;
executed trades charge a strictly positive commission (so wealth strictly
decreases at trades); and bars without a trade charge nothing and leave the
state untouched.  For the benchmark the single entry at bar 0 turns
`capital` into `capital − c·capital`, a strict decrease. -/
theorem equity_conservation_and_commission (c capital : ℚ) (bars : List Bar)
    (hc : 0 < c) (hc1 : c < 1) (hcap : 0 ≤ capital)
    (hclose : ∀ b ∈ bars, 0 < b.close) (t : ℕ) (ht : t < bars.length) :
    ((recordCurve c (initState capital) bars).getD t 0 =
        equityOf (stateAt c capital bars t).1 (barAt bars t).close ∧
      equityOf (stateAt c capital bars t).1 (barAt bars t).close =
        equityOf (stateBefore c capital bars t).1 (barAt bars t).close
          - commissionAt c (stateBefore c capital bars t).1 (barAt bars t) ∧
      (TradedAt c (stateBefore c capital bars t).1 (barAt bars t) →
        0 < commissionAt c (stateBefore c capital bars t).1 (barAt bars t)) ∧
      (¬ TradedAt c (stateBefore c capital bars t).1 (barAt bars t) →
        commissionAt c (stateBefore c capital bars t).1 (barAt bars t) = 0 ∧
        stateAt c capital bars t = stateBefore c capital bars t)) ∧
    ((benchCurve c capital bars).getD t 0 =
        0 + benchShares c capital (bars.headD ⟨1, 0⟩).close * (barAt bars t).close ∧
      (0 < capital →
        benchShares c capital (bars.headD ⟨1, 0⟩).close * (bars.headD ⟨1, 0⟩).close
          = capital - c * capital ∧ 0 < c * capital)) := by
  have hbt : 0 < (barAt bars t).close := by
    apply hclose
    unfold barAt
    rw [List.getD_eq_getElem?_getD, List.getElem?_eq_getElem ht]
    exact List.getElem_mem ht
  have hinv : 0 ≤ (stateBefore c capital bars t).1.cash ∧
      0 ≤ (stateBefore c capital bars t).1.shares := by
    unfold stateBefore
    exact stateAfter_nonneg c hc1 (bars.take t) (initState capital) hcap le_rfl
      (fun b hb => hclose b (List.mem_of_mem_take hb))
  refine ⟨⟨?_, ?_, ?_, ?_⟩, ?_, ?_⟩
  · exact recordCurve_getD c bars (initState capital) t ht
  · exact stepBar_wealth c (stateBefore c capital bars t) (barAt bars t) hbt
  · intro htr
    exact commissionAt_pos c (stateBefore c capital bars t).1 (barAt bars t)
      hc hc1 hbt hinv.2 htr
  · intro htr
    obtain ⟨h1, h2⟩ := stepBar_skip c (stateBefore c capital bars t) (barAt bars t) htr
    exact ⟨h2, h1⟩
  · exact benchCurve_getD c capital bars t ht
  · intro hpos
    have hhead : 0 < (bars.headD ⟨1, 0⟩).close := by
      rcases bars with _ | ⟨b, bs⟩
      · simp at ht
      · exact hclose b (List.mem_cons_self b bs)
    exact ⟨bench_entry c capital (bars.headD ⟨1, 0⟩).close hhead.ne',
      mul_pos hc hpos⟩

/-- Witness for C1, at Scenario B (closes 100, 110, 105; signals buy, hold,
sell; capital 1000; commission 1%) on the sell bar `t = 2`. -/
theorem equity_conservation_and_commission_witness :
    ((recordCurve (1/100) (initState 1000) barsA).getD 2 0 =
        equityOf (stateAt (1/100) 1000 barsA 2).1 (barAt barsA 2).close ∧
      equityOf (stateAt (1/100) 1000 barsA 2).1 (barAt barsA 2).close =
        equityOf (stateBefore (1/100) 1000 barsA 2).1 (barAt barsA 2).close
          - commissionAt (1/100) (stateBefore (1/100) 1000 barsA 2).1 (barAt barsA 2) ∧
      (TradedAt (1/100) (stateBefore (1/100) 1000 barsA 2).1 (barAt barsA 2) →
        0 < commissionAt (1/100) (stateBefore (1/100) 1000 barsA 2).1 (barAt barsA 2)) ∧
      (¬ TradedAt (1/100) (stateBefore (1/100) 1000 barsA 2).1 (barAt barsA 2) →
        commissionAt (1/100) (stateBefore (1/100) 1000 barsA 2).1 (barAt barsA 2) = 0 ∧
        stateAt (1/100) 1000 barsA 2 = stateBefore (1/100) 1000 barsA 2)) ∧
    ((benchCurve (1/100) 1000 barsA).getD 2 0 =
        0 + benchShares (1/100) 1000 (barsA.headD ⟨1, 0⟩).close * (barAt barsA 2).close ∧
      (0 < (1000 : ℚ) →
        benchShares (1/100) 1000 (barsA.headD ⟨1, 0⟩).close * (barsA.headD ⟨1, 0⟩).close
          = 1000 - (1/100) * 1000 ∧ 0 < (1/100 : ℚ) * 1000)) :=
  equity_conservation_and_commission (1/100) 1000 barsA (by norm_num) (by norm_num)
    (by norm_num)
    (by
      intro b hb
      simp only [barsA, List.mem_cons, List.not_mem_nil, or_false] at hb
      rcases hb with rfl | rfl | rfl <;> norm_num)
    2 (by norm_num [barsA])

end Dashboard
